import Mathlib

/-!
Shallow embedding of `src/batch_transfer_airdrop.py`, a sequential batch
ERC-20 transfer script.  The embedding covers: the recipient-list parser
`parse_recipients`, the fee strategy `pick_fees`, the CSV `AuditLogger`,
and the per-recipient transfer loop of `main` (counters, nonce handling,
audit rows, exit code).  External collaborators — the web3 RPC client,
transaction signing, and the keccak-based EIP-55 address checksum — are
modelled as explicit inputs (`AttemptEnv`, `MainEnv`, `ChecksumOracle`)
supplying the values or exceptions those collaborators would produce.
-/

/-- Module constant `EXPECTED_DECIMALS = 18` (enforced to avoid mis-sends). -/
def EXPECTED_DECIMALS : Nat := 18

/-- Module constant `MAX_PRIORITY_FEE_GWEI = None` (`None` selects the
default priority fee of `Decimal("1.5")` gwei inside `pick_fees`). -/
def MAX_PRIORITY_FEE_GWEI : Option ℚ := none

/-- Module constant `MAX_FEE_MULTIPLIER = Decimal("2.0")`. -/
def MAX_FEE_MULTIPLIER : ℚ := 2

/-- Split a character list at every occurrence of `sep` (the pieces, in
order, without the separator); structural analogue of `str.split`. -/
def charSplitOn (sep : Char) : List Char → List (List Char)
  | [] => [[]]
  | c :: cs =>
    if c = sep then [] :: charSplitOn sep cs
    else
      match charSplitOn sep cs with
      | [] => [[c]]
      | p :: ps => (c :: p) :: ps

/-- Whether `pre` is a prefix of `cs`; structural analogue of `str.startswith`. -/
def charsStart (pre cs : List Char) : Bool :=
  match pre, cs with
  | [], _ => true
  | _ :: _, [] => false
  | p :: ps, c :: cs => p == c && charsStart ps cs

/-- Python `str.strip` (whitespace from both ends). -/
def pyStrip (s : String) : String :=
  String.mk (((s.data.dropWhile Char.isWhitespace).reverse.dropWhile
    Char.isWhitespace).reverse)

/-- Python `sub in hay` for strings: substring test. -/
def pySubstr (hay sub : String) : Bool :=
  (List.range (hay.data.length + 1)).any
    (fun k => charsStart sub.data (hay.data.drop k))

/-- Python `str.splitlines` restricted to `\n` separators (the recipient
constant in the source uses plain `\n` line endings): split on `\n`
without a trailing empty piece, and `[]` on the empty string, matching
Python. -/
def pySplitlines (s : String) : List String :=
  match (charSplitOn '\n' s.data).reverse with
  | [] :: rest => rest.reverse.map String.mk
  | ps => ps.reverse.map String.mk

/-- Python `line.split(",", 1)` when at least one comma is present:
the text before the first comma and everything after it. -/
def pySplitComma1 (s : String) : String × String :=
  match charSplitOn ',' s.data with
  | [] => (s, "")
  | [a] => (String.mk a, "")
  | a :: rest => (String.mk a, String.mk (List.intercalate [','] rest))

/-- Python `int(str)` on an already-stripped string: optional sign then
decimal digits (`_` digit separators are not modelled); `none` models the
`ValueError` raised on any other input. -/
def pyInt? (s : String) : Option Int :=
  let t := (pyStrip s).data
  let (neg, digits) :=
    if charsStart ['-'] t then (true, t.drop 1)
    else if charsStart ['+'] t then (false, t.drop 1)
    else (false, t)
  if digits.isEmpty || !(digits.all Char.isDigit) then none
  else
    let n : Nat := digits.foldl (fun acc c => acc * 10 + (c.toNat - '0'.toNat)) 0
    some (if neg then -(n : Int) else (n : Int))

/-- Hexadecimal digit, either case. -/
def isHexChar (c : Char) : Bool :=
  c.isDigit || ('a' ≤ c && c ≤ 'f') || ('A' ≤ c && c ≤ 'F')

/-- eth_utils `is_hex_address`: `0x` followed by exactly 40 hex digits. -/
def isHexAddress (s : String) : Bool :=
  charsStart ['0', 'x'] s.data && s.data.length == 42 &&
    (s.data.drop 2).all isHexChar

/-- The hex digits of `s` (past `0x`) contain an upper-case letter. -/
def hasUpperHexLetter (s : String) : Bool :=
  (s.data.drop 2).any (fun c => 'A' ≤ c && c ≤ 'F')

/-- The hex digits of `s` (past `0x`) contain a lower-case letter. -/
def hasLowerHexLetter (s : String) : Bool :=
  (s.data.drop 2).any (fun c => 'a' ≤ c && c ≤ 'f')

/-- Python `str.lower`, character-wise. -/
def pyLower (s : String) : String :=
  String.mk (s.data.map Char.toLower)

/-- The keccak-based part of EIP-55 address validation lives in the web3
library (an external collaborator), so it is abstracted: `valid` tells
whether a mixed-case rendering passes the checksum test, `format`
produces the canonical checksummed rendering. -/
structure ChecksumOracle where
  valid : String → Bool
  format : String → String

/-- Model of `Web3.to_checksum_address`: accepts a `0x`-prefixed 40-hex-digit
string whose letters are single-case or whose mixed case passes the
EIP-55 checksum, and returns the checksummed rendering; `none` models the
`ValueError` it raises otherwise. -/
def to_checksum_address (ck : ChecksumOracle) (s : String) : Option String :=
  if isHexAddress s then
    if hasUpperHexLetter s && hasLowerHexLetter s then
      if ck.valid s then some (ck.format s) else none
    else some (ck.format s)
  else none

/-- The address-normalization step of `parse_recipients`: try strict
checksum conversion, and on failure retry with the lower-cased text
(the `try/except` at lines 137–140 of the source). -/
def normalize_address (ck : ChecksumOracle) (s : String) : Option String :=
  match to_checksum_address ck s with
  | some a => some a
  | none => to_checksum_address ck (pyLower s)

/-- Decidable equality for `Except`, used to evaluate the embedding at
concrete inputs. -/
instance exceptDecEq {ε α : Type} [DecidableEq ε] [DecidableEq α] :
    DecidableEq (Except ε α) := fun x y =>
  match x, y with
  | .ok a, .ok b =>
    if h : a = b then .isTrue (by rw [h]) else .isFalse (fun hh => by cases hh; exact h rfl)
  | .error a, .error b =>
    if h : a = b then .isTrue (by rw [h]) else .isFalse (fun hh => by cases hh; exact h rfl)
  | .ok _, .error _ => .isFalse nofun
  | .error _, .ok _ => .isFalse nofun

/-- The `ValueError`s that `parse_recipients` can raise:
line lacking a comma (with 1-based line number and stripped text),
`int()` failing on the amount text, address failing both checksum
attempts, and a parsed amount `≤ 0` (with 1-based line number). -/
inductive ParseError where
  | malformedLine (lineNo : Nat) (text : String)
  | invalidIntLiteral (text : String)
  | invalidAddress (text : String)
  | nonPositiveAmount (lineNo : Nat) (amt : Int)
deriving DecidableEq, Repr

/-- One iteration of the `parse_recipients` loop on the `idx`-th
(1-based) raw line: `ok none` when the stripped line is empty or a
comment, `ok (some entry)` on success, `error` on the `ValueError`
raised there. -/
def parseLine (ck : ChecksumOracle) (idx : Nat) (rawLine : String) :
    Except ParseError (Option (String × Int)) :=
  let line := pyStrip rawLine
  if line.data.isEmpty || charsStart ['#'] line.data then .ok none
  else if !(line.data.any (· == ',')) then .error (.malformedLine idx line)
  else
    let p := pySplitComma1 line
    let addrStr := pyStrip p.1
    let amtStr := pyStrip p.2
    match normalize_address ck addrStr with
    | none => .error (.invalidAddress addrStr)
    | some addr =>
      match pyInt? amtStr with
      | none => .error (.invalidIntLiteral amtStr)
      | some amt =>
        if amt ≤ 0 then .error (.nonPositiveAmount idx amt)
        else .ok (some (addr, amt))

/-- The `parse_recipients` loop over the remaining lines, threading the
1-based line index and stopping at the first raised error. -/
def parseLines (ck : ChecksumOracle) : Nat → List String → Except ParseError (List (String × Int))
  | _, [] => .ok []
  | idx, l :: rest =>
    match parseLine ck idx l with
    | .error e => .error e
    | .ok none => parseLines ck (idx + 1) rest
    | .ok (some entry) => (parseLines ck (idx + 1) rest).map (entry :: ·)

/-- The function `parse_recipients(raw)` (source lines 125–147). -/
def parse_recipients (ck : ChecksumOracle) (raw : String) :
    Except ParseError (List (String × Int)) :=
  parseLines ck 1 (pySplitlines raw)

/-- The entry contributed by the `idx`-th line when it parses cleanly,
`none` when it is skipped or raises. -/
def lineEntry (ck : ChecksumOracle) (idx : Nat) (l : String) : Option (String × Int) :=
  match parseLine ck idx l with
  | .ok (some e) => some e
  | _ => none

/-- The error the `idx`-th line raises, if any. -/
def lineDefect (ck : ChecksumOracle) (idx : Nat) (l : String) : Option ParseError :=
  match parseLine ck idx l with
  | .error e => some e
  | .ok _ => none

/-- The function `token_units(amount_no_decimals, decimals)` (source lines 150–151). -/
def token_units (amount_no_decimals : Int) (decimals : Nat) : Int :=
  amount_no_decimals * (10 ^ decimals : Int)

/-- The function `is_eip1559(w3)` (source lines 158–160), as a function of the latest
block's optional `baseFeePerGas` field. -/
def is_eip1559 (baseFeePerGas : Option Nat) : Bool :=
  baseFeePerGas.isSome

/-- The tagged fee dictionary returned by `pick_fees`: either the
EIP-1559 `{"type": 2, "maxFeePerGas": _, "maxPriorityFeePerGas": _}`
shape or the legacy `{"gasPrice": _}` shape. -/
inductive FeeFields where
  | eip1559 (maxFeePerGas maxPriorityFeePerGas : Nat)
  | legacy (gasPrice : Nat)
deriving DecidableEq, Repr

/-- Model of `w3.to_wei(g, "gwei")`: gwei amount scaled to wei (exact for the
decimal amounts the script uses). -/
def to_wei_gwei (g : ℚ) : Nat :=
  (⌊g * 1000000000⌋).toNat

/-- The function `pick_fees(w3)` (source lines 163–176), as a function of the
configured `MAX_PRIORITY_FEE_GWEI` override, the latest block's optional
`baseFeePerGas` (in wei) and the network's suggested legacy gas price.
`int(Decimal(base) * MAX_FEE_MULTIPLIER)` is the floor for the
non-negative `base`. -/
def pick_fees (cfgPriorityGwei : Option ℚ) (baseFeePerGas : Option Nat) (gasPrice : Nat) :
    FeeFields :=
  if is_eip1559 baseFeePerGas then
    let base : Nat := baseFeePerGas.getD 0
    let priority : Nat :=
      match cfgPriorityGwei with
      | none => to_wei_gwei (3 / 2 : ℚ)
      | some g => to_wei_gwei g
    let maxFee : Nat := (⌊(base : ℚ) * MAX_FEE_MULTIPLIER⌋).toNat + priority
    .eip1559 maxFee priority
  else
    .legacy gasPrice

/-- The `maxFeePerGas` field of a fee dictionary, when present. -/
def maxFeeOf : FeeFields → Option Nat
  | .eip1559 m _ => some m
  | .legacy _ => none

/-- The `maxPriorityFeePerGas` field of a fee dictionary, when present. -/
def priorityFeeOf : FeeFields → Option Nat
  | .eip1559 _ p => some p
  | .legacy _ => none

/-- The header row written by `AuditLogger.__enter__` on a fresh file
(source lines 96–100). -/
def AUDIT_HEADER : List String :=
  ["timestamp", "transfer_num", "to_address", "amount_human",
   "amount_raw", "tx_hash", "status", "block_number", "gas_used", "error"]

/-- The method `AuditLogger.__enter__` (source lines 92–101) on the audit file's
state: `none` models a file that does not exist (append-mode open creates
it and the header row is written), `some rows` an existing file whose CSV
rows are kept untouched by the append-mode open. -/
def auditEnter : Option (List (List String)) → List (List String)
  | none => [AUDIT_HEADER]
  | some rows => rows

/-- One `AuditLogger.log` call: appends a single CSV row (source lines
107–122; the immediate flush has no effect on content). -/
def auditLog (rows : List (List String)) (row : List String) : List (List String) :=
  rows ++ [row]

/-- A sequence of `AuditLogger.log` calls in order. -/
def auditLogAll (rows : List (List String)) (newRows : List (List String)) :
    List (List String) :=
  newRows.foldl auditLog rows

/-- Python `x or ""` for an optional string CSV field (`tx_hash`,
`error`): `None` renders as the empty string. -/
def pyOrEmptyS : Option String → String
  | none => ""
  | some s => s

/-- Python `x or ""` for an optional numeric CSV field (`block_number`,
`gas_used`): `None` renders empty, and so does `0` (falsy in Python). -/
def pyOrEmptyN : Option Nat → String
  | none => ""
  | some n => if n = 0 then "" else toString n

/-- The CSV row written by `AuditLogger.log` (source lines 110–121), with
the wall-clock timestamp supplied externally. -/
def renderRow (timestamp : String) (transferNum : Nat) (toAddr : String)
    (amtHuman amtRaw : Int) (txHash : Option String) (status : String)
    (blockNumber gasUsed : Option Nat) (error : Option String) : List String :=
  [timestamp, toString transferNum, toAddr, toString amtHuman, toString amtRaw,
   pyOrEmptyS txHash, status, pyOrEmptyN blockNumber, pyOrEmptyN gasUsed,
   pyOrEmptyS error]

/-- The `status` column of a CSV row. -/
def rowStatus (r : List String) : String :=
  r.getD 6 ""

/-- The exceptions distinguished by the `except` clauses of the transfer
loop (source lines 372–386): `TimeExhausted`, `ContractLogicError`, and
any other `Exception`. -/
inductive Exn where
  | timeExhausted
  | contractLogicError (msg : String)
  | other (msg : String)
deriving DecidableEq, Repr

/-- The `status` string each `except` clause assigns (source lines
372–386). -/
def statusOfExn : Exn → String
  | .timeExhausted => "TIMEOUT"
  | .contractLogicError _ => "CONTRACT_ERROR"
  | .other _ => "ERROR"

/-- The `error_msg` string each `except` clause assigns. -/
def errMsgOfExn : Exn → String
  | .timeExhausted => "Receipt timeout - tx may still be pending"
  | .contractLogicError m => m
  | .other m => m

/-- A transaction receipt as the loop reads it: `status` (1 = success),
`blockNumber`, `gasUsed`. -/
structure Receipt where
  status : Nat
  blockNumber : Nat
  gasUsed : Nat
deriving DecidableEq, Repr

/-- What `w3.eth.wait_for_transaction_receipt` does on this attempt:
returns a receipt or raises. -/
inductive WaitResult where
  | ok (r : Receipt)
  | exn (e : Exn)
deriving DecidableEq, Repr

/-- The behaviour of the external collaborators during one attempt of
the transfer loop: the outcome of `pick_fees` (the `.ok` value being the
fee dictionary the current network state yields), of
`estimate_gas`, of `build_transaction`/`sign_transaction`, of
`send_raw_transaction` (the `.ok` value being the hex transaction hash),
of `wait_for_transaction_receipt`, the wall-clock timestamp of the audit
row, and the value `w3.eth.get_transaction_count(sender, "pending")`
would return if the loop refreshes the nonce. -/
structure AttemptEnv where
  timestamp : String
  feeResult : Except Exn FeeFields
  gasEstimate : Except Exn Nat
  signResult : Except Exn Unit
  broadcastResult : Except Exn String
  waitResult : WaitResult
  pendingNonce : Nat
deriving Repr

/-- The loop-carried state of `main`: the local nonce counter, the three
counters, and the audit file's rows. -/
structure LoopState where
  nonce : Nat
  succeeded : Nat
  failed : Nat
  skipped : Nat
  rows : List (List String)
deriving DecidableEq, Repr

/-- The per-attempt variables at the end of the `try`/`except` block:
`sent_tx_hash`, `receipt`, `status`, `error_msg`. -/
structure TryOutcome where
  sentTxHash : Option String
  receipt : Option Receipt
  status : String
  errMsg : Option String
deriving DecidableEq, Repr

/-- The statuses of line 402: `("SUCCESS", "REVERTED", "TIMEOUT")`. -/
def STATUSES_CONSUMING_NONCE : List String :=
  ["SUCCESS", "REVERTED", "TIMEOUT"]

/-- The `try`/`except` block of the transfer loop (source lines
305–386), paired with the ordered list of ledger-client collaborators it
invoked.  A gas-estimation failure is swallowed by the inner
`try/except` and degrades to the fallback limit 120000 (the limit is
otherwise unobservable here, hence unused); any exception from the other
steps is classified by the `except` clauses.  The best-effort Transfer
event decode (lines 362–370) is swallowed and changes nothing. -/
def runTry (env : AttemptEnv) : TryOutcome × List String :=
  match env.feeResult with
  | .error e => (⟨none, none, statusOfExn e, some (errMsgOfExn e)⟩, ["pick_fees"])
  | .ok _fees =>
    let _gasLimit : Nat :=
      match env.gasEstimate with
      | .ok g => g * 115 / 100
      | .error _ => 120000
    match env.signResult with
    | .error e =>
      (⟨none, none, statusOfExn e, some (errMsgOfExn e)⟩,
       ["pick_fees", "estimate_gas", "sign_transaction"])
    | .ok _ =>
      match env.broadcastResult with
      | .error e =>
        (⟨none, none, statusOfExn e, some (errMsgOfExn e)⟩,
         ["pick_fees", "estimate_gas", "sign_transaction", "send_raw_transaction"])
      | .ok h =>
        let calls := ["pick_fees", "estimate_gas", "sign_transaction",
                      "send_raw_transaction", "wait_for_transaction_receipt"]
        match env.waitResult with
        | .exn e => (⟨some h, none, statusOfExn e, some (errMsgOfExn e)⟩, calls)
        | .ok r =>
          if r.status = 1 then (⟨some h, some r, "SUCCESS", none⟩, calls)
          else (⟨some h, some r, "REVERTED", none⟩, calls)

/-- What one iteration of the transfer loop leaves behind: the new loop
state, the collaborators invoked, and the attempt's `sent_tx_hash` and
terminal `status`. -/
structure AttemptResult where
  st : LoopState
  calls : List String
  sentTxHash : Option String
  status : String
deriving DecidableEq, Repr

/-- The static configuration of the script gathered from its module
constants: `DRY_RUN`, `SKIP_FIRST_N`, `RPC_URL`, `PRIVATE_KEY`,
`RECIPIENTS_RAW`. -/
structure ScriptConfig where
  rpcUrl : String
  privateKey : String
  dryRun : Bool
  skipFirstN : Nat
  recipientsRaw : String
deriving DecidableEq, Repr

/-- One iteration of the `for i, (to_addr, amt_human) in enumerate(...)`
loop (source lines 280–421), for the `i`-th recipient (1-based).  In the
source each path increments exactly one counter: `succeeded` in the
receipt-success branch, `failed` in the revert branch and in each
`except` clause (that is, exactly when `status` is not `"SUCCESS"`), and
`skipped` in the dry-run branch.  The nonce handling is lines 401–407:
increment locally when a hash was obtained and the status is in
`STATUSES_CONSUMING_NONCE`, otherwise re-fetch the pending transaction
count. -/
def attemptBody (cfg : ScriptConfig) (decimals : Nat) (env : AttemptEnv)
    (st : LoopState) (i : Nat) (toAddr : String) (amtHuman : Int) : AttemptResult :=
  let actualNum := i + cfg.skipFirstN
  let amtUnits := token_units amtHuman decimals
  if cfg.dryRun then
    let row := renderRow env.timestamp actualNum toAddr amtHuman amtUnits
      none "DRY_RUN" none none none
    ⟨{ st with skipped := st.skipped + 1, nonce := st.nonce + 1,
               rows := auditLog st.rows row },
     [], none, "DRY_RUN"⟩
  else
    let tc := runTry env
    let t := tc.1
    let row := renderRow env.timestamp actualNum toAddr amtHuman amtUnits
      t.sentTxHash t.status (t.receipt.map (·.blockNumber))
      (t.receipt.map (·.gasUsed)) t.errMsg
    let succeeded' := if t.status = "SUCCESS" then st.succeeded + 1 else st.succeeded
    let failed' := if t.status = "SUCCESS" then st.failed else st.failed + 1
    let consumed := t.sentTxHash.isSome && STATUSES_CONSUMING_NONCE.contains t.status
    let nonce' := if consumed then st.nonce + 1 else env.pendingNonce
    let calls' := if consumed then tc.2 else tc.2 ++ ["get_transaction_count"]
    ⟨{ nonce := nonce', succeeded := succeeded', failed := failed',
       skipped := st.skipped, rows := auditLog st.rows row },
     calls', t.sentTxHash, t.status⟩

/-- The whole transfer loop, starting at 1-based index `i` (the source
uses `enumerate(recipients, start=1)`). -/
def runLoop (cfg : ScriptConfig) (decimals : Nat) :
    LoopState → Nat → List ((String × Int) × AttemptEnv) → LoopState
  | st, _, [] => st
  | st, i, (r, env) :: rest =>
    runLoop cfg decimals (attemptBody cfg decimals env st i r.1 r.2).st (i + 1) rest

/-- The behaviour of the external collaborators across one run of
`main`: connectivity, the `decimals()` call, the sender's token balance,
the operator's confirmation input, the starting pending nonce, the audit
file's prior state, the per-attempt collaborator behaviours, and the
checksum oracle.  The `name()`/`symbol()` calls have their failures
swallowed with a fallback string and no control effect, so they are not
modelled. -/
structure MainEnv where
  connected : Bool
  decimalsResult : Except String Nat
  tokenBalance : Int
  confirmInput : String
  startPendingNonce : Nat
  fileState : Option (List (List String))
  attempts : List AttemptEnv
  ck : ChecksumOracle

/-- How a run of `main` ends: an early `return 1` before the audit
section opens (file untouched), an uncaught `ValueError` from
`parse_recipients` (file untouched), or a completed loop with its final
state and the returned exit code. -/
inductive MainOutcome where
  | earlyExit (code : Nat)
  | parseCrash (e : ParseError)
  | finished (st : LoopState) (code : Nat)

/-- The function `main()` (source lines 179–434): the precondition checks in source
order, then the recipient slice for resume, the balance precondition,
the live-mode confirmation prompt, the starting pending nonce, the audit
section with the transfer loop, and the final
`return 0 if failed == 0 else 1`. -/
def mainModel (cfg : ScriptConfig) (env : MainEnv) : MainOutcome :=
  if cfg.rpcUrl = "" || pySubstr cfg.rpcUrl "YOUR_RPC_ENDPOINT" then .earlyExit 1
  else if cfg.privateKey = "" || pySubstr cfg.privateKey "YOUR_PRIVATE_KEY_HERE" then
    .earlyExit 1
  else if !env.connected then .earlyExit 1
  else
    match env.decimalsResult with
    | .error _ => .earlyExit 1
    | .ok decimals =>
      if decimals ≠ EXPECTED_DECIMALS then .earlyExit 1
      else
        match parse_recipients env.ck cfg.recipientsRaw with
        | .error e => .parseCrash e
        | .ok allRecipients =>
          let recipients :=
            if cfg.skipFirstN > 0 then allRecipients.drop cfg.skipFirstN
            else allRecipients
          let requiredUnits := (recipients.map (fun p => token_units p.2 decimals)).sum
          if env.tokenBalance < requiredUnits then .earlyExit 1
          else if !cfg.dryRun && env.confirmInput ≠ "SEND" then .earlyExit 1
          else
            let rows0 := auditEnter env.fileState
            let st0 : LoopState :=
              { nonce := env.startPendingNonce, succeeded := 0, failed := 0,
                skipped := 0, rows := rows0 }
            let st := runLoop cfg decimals st0 1 (recipients.zip env.attempts)
            .finished st (if st.failed = 0 then 0 else 1)

/-- The audit file's state after a run of `main` that started from
`fs0`: untouched unless the audit section ran. -/
def fileAfter (fs0 : Option (List (List String))) : MainOutcome → Option (List (List String))
  | .earlyExit _ => fs0
  | .parseCrash _ => fs0
  | .finished st _ => some st.rows

/-!  Concrete instances used for closed evaluations. -/

/-- A concrete checksum oracle: every mixed-case rendering counts as
checksum-valid and formatting is the identity.  The concrete addresses
below are all-lowercase, so their validation never consults the oracle. -/
def ckAny : ChecksumOracle := ⟨fun _ => true, fun s => s⟩

/-- The burn address used in the script's hard-coded recipient list. -/
def addrDead : String := "0x000000000000000000000000000000000000dead"

/-- The script's configuration as shipped (`DRY_RUN = True`,
`SKIP_FIRST_N = 0`), with an empty recipient list. -/
def cfgDry : ScriptConfig :=
  { rpcUrl := "https://rpc.mevblocker.io", privateKey := "0xPrivateKey",
    dryRun := true, skipFirstN := 0, recipientsRaw := "" }

/-- The same configuration with `DRY_RUN = False`. -/
def cfgLive : ScriptConfig := { cfgDry with dryRun := false }

/-- A loop state with empty audit rows and zero counters. -/
def stEmpty : LoopState :=
  { nonce := 0, succeeded := 0, failed := 0, skipped := 0, rows := [] }

/-- A loop state whose local nonce counter is 5. -/
def st5 : LoopState :=
  { nonce := 5, succeeded := 0, failed := 0, skipped := 0, rows := [] }

/-- An attempt in which the transaction is broadcast (hash `0xabc`) and
then a generic exception is raised while waiting for the receipt; the
network's pending count would answer 42. -/
def envHashThenError : AttemptEnv :=
  { timestamp := "2026-01-01T00:00:00+00:00",
    feeResult := .ok (.legacy 7), gasEstimate := .ok 21000,
    signResult := .ok (), broadcastResult := .ok "0xabc",
    waitResult := .exn (.other "connection lost"), pendingNonce := 42 }

/-- An attempt in which the transaction is broadcast and the receipt
wait times out (`TimeExhausted`). -/
def envTimeout : AttemptEnv :=
  { envHashThenError with waitResult := .exn .timeExhausted }

/-- An attempt in which the fee query itself raises, before any hash is
obtained. -/
def envFeeFail : AttemptEnv :=
  { envHashThenError with feeResult := .error (.other "rpc down") }

/-- A `main` run whose token reports 6 decimals. -/
def envDec6 : MainEnv :=
  { connected := true, decimalsResult := .ok 6, tokenBalance := 0,
    confirmInput := "", startPendingNonce := 0, fileState := none,
    attempts := [], ck := ckAny }

/-- A `main` run whose token reports the expected 18 decimals and whose
recipient list is empty. -/
def envOk : MainEnv := { envDec6 with decimalsResult := .ok 18 }

/-- The loop state `mainModel cfgDry envOk` finishes with. -/
def stFin : LoopState :=
  { nonce := 0, succeeded := 0, failed := 0, skipped := 0, rows := [AUDIT_HEADER] }

/-!  Helper lemmas. -/

/-- Appending a batch of audit rows is list append. -/
theorem auditLogAll_eq (newRows : List (List String)) :
    ∀ rows, auditLogAll rows newRows = rows ++ newRows := by
  induction newRows with
  | nil => intro rows; simp [auditLogAll]
  | cons r rest ih =>
    intro rows
    show auditLogAll (auditLog rows r) rest = _
    rw [ih, auditLog]
    simp

/-- The value `int(Decimal(base) * Decimal("2.0"))` is exactly `2 * base`. -/
theorem floorMulTwo (base : Nat) :
    (⌊(base : ℚ) * MAX_FEE_MULTIPLIER⌋).toNat = 2 * base := by
  have h : ((base : ℚ) * MAX_FEE_MULTIPLIER) = ((2 * base : ℕ) : ℚ) := by
    unfold MAX_FEE_MULTIPLIER; push_cast; ring
  rw [h, Int.floor_natCast, Int.toNat_natCast]

/-- The default priority fee `w3.to_wei(Decimal("1.5"), "gwei")` is
1500000000 wei. -/
theorem priorityDefault : to_wei_gwei (3 / 2 : ℚ) = 1500000000 := by
  unfold to_wei_gwei
  have h : ((3 / 2 : ℚ) * 1000000000) = ((1500000000 : ℕ) : ℚ) := by push_cast; norm_num
  rw [h, Int.floor_natCast, Int.toNat_natCast]

/-- Closed form of `pick_fees` on a fee-market chain under the default
configuration. -/
theorem pickFeesDefault (base gasPrice : Nat) :
    pick_fees MAX_PRIORITY_FEE_GWEI (some base) gasPrice =
      .eip1559 (2 * base + 1500000000) 1500000000 := by
  unfold pick_fees MAX_PRIORITY_FEE_GWEI is_eip1559
  simp [floorMulTwo, priorityDefault]

/-- The terminal status of the `try`/`except` block is one of the five
live-mode statuses. -/
theorem runTry_status_mem (env : AttemptEnv) :
    (runTry env).1.status ∈ ["SUCCESS", "REVERTED", "TIMEOUT", "CONTRACT_ERROR", "ERROR"] := by
  obtain ⟨ts, fr, ge, sr, br, wr, pn⟩ := env
  unfold runTry
  cases fr with
  | error e => cases e <;> simp [statusOfExn]
  | ok f =>
    cases sr with
    | error e => cases e <;> simp [statusOfExn]
    | ok u =>
      cases br with
      | error e => cases e <;> simp [statusOfExn]
      | ok h =>
        cases wr with
        | exn e => cases e <;> simp [statusOfExn]
        | ok r =>
          by_cases hs : r.status = 1 <;> simp [hs]

/-- No hash was obtained exactly when the fee query, the
build-and-sign step, or the broadcast raised. -/
theorem runTry_hash_iff (env : AttemptEnv) :
    ((runTry env).1.sentTxHash = none ↔
      ((∃ e, env.feeResult = .error e) ∨ (∃ e, env.signResult = .error e) ∨
       (∃ e, env.broadcastResult = .error e))) := by
  obtain ⟨ts, fr, ge, sr, br, wr, pn⟩ := env
  unfold runTry
  cases fr with
  | error e => simp
  | ok f =>
    cases sr with
    | error e => simp
    | ok u =>
      cases br with
      | error e => simp
      | ok h =>
        cases wr with
        | exn e => simp
        | ok r =>
          by_cases hs : r.status = 1 <;> simp [hs]

/-- Closed form of one live-mode loop iteration in terms of the
`try`/`except` outcome. -/
theorem attemptBody_live (cfg : ScriptConfig) (d : Nat) (env : AttemptEnv)
    (st : LoopState) (i : Nat) (a : String) (m : Int) (hlive : cfg.dryRun = false) :
    attemptBody cfg d env st i a m =
      { st := { nonce := if (runTry env).1.sentTxHash.isSome &&
                    STATUSES_CONSUMING_NONCE.contains (runTry env).1.status
                  then st.nonce + 1 else env.pendingNonce,
                succeeded := if (runTry env).1.status = "SUCCESS"
                  then st.succeeded + 1 else st.succeeded,
                failed := if (runTry env).1.status = "SUCCESS"
                  then st.failed else st.failed + 1,
                skipped := st.skipped,
                rows := st.rows ++ [renderRow env.timestamp (i + cfg.skipFirstN) a m
                  (token_units m d) (runTry env).1.sentTxHash (runTry env).1.status
                  ((runTry env).1.receipt.map (·.blockNumber))
                  ((runTry env).1.receipt.map (·.gasUsed)) (runTry env).1.errMsg] },
        calls := if (runTry env).1.sentTxHash.isSome &&
                    STATUSES_CONSUMING_NONCE.contains (runTry env).1.status
                 then (runTry env).2 else (runTry env).2 ++ ["get_transaction_count"],
        sentTxHash := (runTry env).1.sentTxHash,
        status := (runTry env).1.status } := by
  simp only [attemptBody, hlive, Bool.false_eq_true, if_false, auditLog]

/-- Closed form of one dry-run loop iteration. -/
theorem attemptBody_dry (cfg : ScriptConfig) (d : Nat) (env : AttemptEnv)
    (st : LoopState) (i : Nat) (a : String) (m : Int) (hdry : cfg.dryRun = true) :
    attemptBody cfg d env st i a m =
      { st := { nonce := st.nonce + 1, succeeded := st.succeeded, failed := st.failed,
                skipped := st.skipped + 1,
                rows := st.rows ++ [renderRow env.timestamp (i + cfg.skipFirstN) a m
                  (token_units m d) none "DRY_RUN" none none none] },
        calls := [], sentTxHash := none, status := "DRY_RUN" } := by
  simp only [attemptBody, hdry, if_true, auditLog]

/-- The status column of a rendered audit row is the attempt's status. -/
theorem rowStatus_renderRow (ts : String) (n : Nat) (a : String) (mh mr : Int)
    (tx : Option String) (s : String) (bn gu : Option Nat) (er : Option String) :
    rowStatus (renderRow ts n a mh mr tx s bn gu er) = s := rfl

/-- Each loop iteration appends exactly one audit row, carrying the
attempt's terminal status. -/
theorem attemptBody_row (cfg : ScriptConfig) (d : Nat) (env : AttemptEnv)
    (st : LoopState) (i : Nat) (a : String) (m : Int) :
    ∃ row, (attemptBody cfg d env st i a m).st.rows = st.rows ++ [row] ∧
      rowStatus row = (attemptBody cfg d env st i a m).status := by
  by_cases hd : cfg.dryRun = true
  · rw [attemptBody_dry cfg d env st i a m hd]
    exact ⟨_, rfl, rfl⟩
  · rw [attemptBody_live cfg d env st i a m (by simpa using hd)]
    exact ⟨_, rfl, rfl⟩

/-- The attempt's terminal status ranges over the six status strings the
script can write, and in dry-run mode it is always `"DRY_RUN"`. -/
theorem attemptBody_status (cfg : ScriptConfig) (d : Nat) (env : AttemptEnv)
    (st : LoopState) (i : Nat) (a : String) (m : Int) :
    (attemptBody cfg d env st i a m).status ∈
      ["DRY_RUN", "SUCCESS", "REVERTED", "TIMEOUT", "CONTRACT_ERROR", "ERROR"] ∧
    (cfg.dryRun = true → (attemptBody cfg d env st i a m).status = "DRY_RUN") := by
  by_cases hd : cfg.dryRun = true
  · rw [attemptBody_dry cfg d env st i a m hd]
    exact ⟨by simp, fun _ => rfl⟩
  · rw [attemptBody_live cfg d env st i a m (by simpa using hd)]
    refine ⟨?_, fun h => absurd h hd⟩
    have hmem := runTry_status_mem env
    simp only [List.mem_cons, List.mem_singleton] at hmem ⊢
    tauto

/-- Each loop iteration increments exactly one of the three counters by
exactly one. -/
theorem attemptBody_counters (cfg : ScriptConfig) (d : Nat) (env : AttemptEnv)
    (st : LoopState) (i : Nat) (a : String) (m : Int) :
    ((attemptBody cfg d env st i a m).st.succeeded = st.succeeded + 1 ∧
     (attemptBody cfg d env st i a m).st.failed = st.failed ∧
     (attemptBody cfg d env st i a m).st.skipped = st.skipped) ∨
    ((attemptBody cfg d env st i a m).st.succeeded = st.succeeded ∧
     (attemptBody cfg d env st i a m).st.failed = st.failed + 1 ∧
     (attemptBody cfg d env st i a m).st.skipped = st.skipped) ∨
    ((attemptBody cfg d env st i a m).st.succeeded = st.succeeded ∧
     (attemptBody cfg d env st i a m).st.failed = st.failed ∧
     (attemptBody cfg d env st i a m).st.skipped = st.skipped + 1) := by
  by_cases hd : cfg.dryRun = true
  · rw [attemptBody_dry cfg d env st i a m hd]
    right; right; exact ⟨rfl, rfl, rfl⟩
  · rw [attemptBody_live cfg d env st i a m (by simpa using hd)]
    by_cases hs : (runTry env).1.status = "SUCCESS"
    · left; simp [hs]
    · right; left; simp [hs]

/-- Unfolding equation for one loop step. -/
theorem runLoop_cons (cfg : ScriptConfig) (d : Nat) (st : LoopState) (i : Nat)
    (r : String × Int) (env : AttemptEnv) (rest : List ((String × Int) × AttemptEnv)) :
    runLoop cfg d st i ((r, env) :: rest) =
      runLoop cfg d (attemptBody cfg d env st i r.1 r.2).st (i + 1) rest := rfl

/-- The loop appends one row per processed item and adds the number of
processed items to the sum of the three counters. -/
theorem runLoop_sums (cfg : ScriptConfig) (d : Nat) :
    ∀ (items : List ((String × Int) × AttemptEnv)) (st : LoopState) (i : Nat),
      (runLoop cfg d st i items).succeeded + (runLoop cfg d st i items).failed +
          (runLoop cfg d st i items).skipped =
        st.succeeded + st.failed + st.skipped + items.length ∧
      (runLoop cfg d st i items).rows.length = st.rows.length + items.length := by
  intro items
  induction items with
  | nil => intro st i; simp [runLoop]
  | cons it rest ih =>
    intro st i
    obtain ⟨r, env⟩ := it
    rw [runLoop_cons]
    obtain ⟨hsum, hrows⟩ := ih (attemptBody cfg d env st i r.1 r.2).st (i + 1)
    constructor
    · rw [hsum]
      rcases attemptBody_counters cfg d env st i r.1 r.2 with
        ⟨h1, h2, h3⟩ | ⟨h1, h2, h3⟩ | ⟨h1, h2, h3⟩ <;>
        rw [h1, h2, h3] <;> simp <;> omega
    · rw [hrows]
      obtain ⟨row, hrow, _⟩ := attemptBody_row cfg d env st i r.1 r.2
      rw [hrow]
      simp
      omega

/-- The loop leaves the starting rows as a prefix and appends rows whose
status column is one of the six statuses (always `"DRY_RUN"` in dry-run
mode). -/
theorem runLoop_rows (cfg : ScriptConfig) (d : Nat) :
    ∀ (items : List ((String × Int) × AttemptEnv)) (st : LoopState) (i : Nat),
      ∃ newRows, (runLoop cfg d st i items).rows = st.rows ++ newRows ∧
        ∀ r ∈ newRows,
          rowStatus r ∈ ["DRY_RUN", "SUCCESS", "REVERTED", "TIMEOUT", "CONTRACT_ERROR", "ERROR"] ∧
          (cfg.dryRun = true → rowStatus r = "DRY_RUN") := by
  intro items
  induction items with
  | nil => intro st i; exact ⟨[], by simp [runLoop], by simp⟩
  | cons it rest ih =>
    intro st i
    obtain ⟨r, env⟩ := it
    rw [runLoop_cons]
    obtain ⟨newRows, hrows, hmem⟩ := ih (attemptBody cfg d env st i r.1 r.2).st (i + 1)
    obtain ⟨row, hrow, hstat⟩ := attemptBody_row cfg d env st i r.1 r.2
    refine ⟨row :: newRows, ?_, ?_⟩
    · rw [hrows, hrow]; simp
    · intro q hq
      rcases List.mem_cons.mp hq with hq | hq
      · subst hq
        rw [hstat]
        exact attemptBody_status cfg d env st i r.1 r.2
      · exact hmem q hq

/-- Unfolding equation: `parseLines` on an empty line list. -/
theorem parseLines_nil (ck : ChecksumOracle) (idx : Nat) :
    parseLines ck idx [] = .ok [] := rfl

/-- Unfolding equation: `parseLines` on a line and the rest. -/
theorem parseLines_cons (ck : ChecksumOracle) (idx : Nat) (l : String) (rest : List String) :
    parseLines ck idx (l :: rest) =
      match parseLine ck idx l with
      | .error e => .error e
      | .ok none => parseLines ck (idx + 1) rest
      | .ok (some entry) => (parseLines ck (idx + 1) rest).map (entry :: ·) := rfl

/-- A successfully parsed entry has a strictly positive amount. -/
theorem parseLine_ok_pos (ck : ChecksumOracle) (idx : Nat) (l : String)
    (e : String × Int) (h : parseLine ck idx l = .ok (some e)) : 0 < e.2 := by
  simp only [parseLine] at h
  split at h
  · simp at h
  · split at h
    · simp at h
    · split at h
      · simp at h
      · split at h
        · simp at h
        · split at h
          · simp at h
          · rename_i amt hle heq
            simp only [Except.ok.injEq, Option.some.injEq] at h
            subst h
            omega

/-- Unfolding equation for `List.enumFrom`. -/
theorem enumFromConsEq {α : Type} (n : Nat) (a : α) (l : List α) :
    List.enumFrom n (a :: l) = (n, a) :: List.enumFrom (n + 1) l := rfl

/-- A successful `parseLines` run returns exactly the per-line entries
of the enumerated lines, in order, and every amount is positive. -/
theorem parseLines_ok (ck : ChecksumOracle) :
    ∀ (lines : List String) (idx : Nat) (out : List (String × Int)),
      parseLines ck idx lines = .ok out →
      out = (List.enumFrom idx lines).filterMap (fun p => lineEntry ck p.1 p.2) ∧
        ∀ e ∈ out, 0 < e.2 := by
  intro lines
  induction lines with
  | nil =>
    intro idx out h
    rw [parseLines_nil] at h
    simp only [Except.ok.injEq] at h
    subst h
    simp
  | cons l rest ih =>
    intro idx out h
    rw [parseLines_cons] at h
    cases hp : parseLine ck idx l with
    | error e => rw [hp] at h; simp at h
    | ok o =>
      rw [hp] at h
      cases o with
      | none =>
        obtain ⟨h1, h2⟩ := ih (idx + 1) out h
        refine ⟨?_, h2⟩
        rw [h1, enumFromConsEq, List.filterMap_cons]
        simp [lineEntry, hp]
      | some entry =>
        cases hr : parseLines ck (idx + 1) rest with
        | error e => rw [hr] at h; simp [Except.map] at h
        | ok out' =>
          rw [hr] at h
          simp only [Except.map, Except.ok.injEq] at h
          subst h
          obtain ⟨h1, h2⟩ := ih (idx + 1) out' hr
          constructor
          · rw [enumFromConsEq, List.filterMap_cons]
            simp [lineEntry, hp, h1]
          · intro e he
            rcases List.mem_cons.mp he with he | he
            · subst he; exact parseLine_ok_pos ck idx l e hp
            · exact h2 e he

/-- Unfolding equation for `List.findSome?` on a cons cell. -/
theorem findSomeConsEq {α β : Type} (f : α → Option β) (a : α) (l : List α) :
    List.findSome? f (a :: l) =
      match f a with
      | some b => some b
      | none => List.findSome? f l := rfl

/-- The loop `parseLines` raises `e` exactly when `e` is the defect of the first
offending enumerated line. -/
theorem parseLines_error_iff (ck : ChecksumOracle) :
    ∀ (lines : List String) (idx : Nat) (e : ParseError),
      (parseLines ck idx lines = .error e ↔
        (List.enumFrom idx lines).findSome? (fun p => lineDefect ck p.1 p.2) = some e) := by
  intro lines
  induction lines with
  | nil => intro idx e; simp [parseLines_nil, List.findSome?]
  | cons l rest ih =>
    intro idx e
    rw [parseLines_cons, enumFromConsEq, findSomeConsEq]
    cases hp : parseLine ck idx l with
    | error e' =>
      have hd : lineDefect ck idx l = some e' := by simp [lineDefect, hp]
      simp [hp, hd]
    | ok o =>
      cases o with
      | none =>
        have hd : lineDefect ck idx l = none := by simp [lineDefect, hp]
        simp only [hp, hd]
        exact ih (idx + 1) e
      | some entry =>
        have hd : lineDefect ck idx l = none := by simp [lineDefect, hp]
        simp only [hp, hd]
        rw [← ih (idx + 1) e]
        cases hr : parseLines ck (idx + 1) rest with
        | error e' => simp [hr, Except.map]
        | ok out' => simp [hr, Except.map]

/-- A stripped, non-empty, non-comment line without a comma yields the
malformed-line error, carrying the line number and the stripped text. -/
theorem lineDefect_malformed (ck : ChecksumOracle) (idx : Nat) (l : String)
    (h1 : (pyStrip l).data.isEmpty = false)
    (h2 : charsStart ['#'] (pyStrip l).data = false)
    (h3 : ((pyStrip l).data.any (· == ',')) = false) :
    lineDefect ck idx l = some (.malformedLine idx (pyStrip l)) := by
  simp [lineDefect, parseLine, h1, h2, h3]

/-- A line whose address fails both checksum attempts yields the
propagated address error, before the amount is even examined. -/
theorem lineDefect_address (ck : ChecksumOracle) (idx : Nat) (l : String)
    (h1 : (pyStrip l).data.isEmpty = false)
    (h2 : charsStart ['#'] (pyStrip l).data = false)
    (h3 : ((pyStrip l).data.any (· == ',')) = true)
    (h4 : normalize_address ck (pyStrip (pySplitComma1 (pyStrip l)).1) = none) :
    lineDefect ck idx l = some (.invalidAddress (pyStrip (pySplitComma1 (pyStrip l)).1)) := by
  simp [lineDefect, parseLine, h1, h2, h3, h4]

/-- With a valid address, a non-integer amount yields the `int()`
error and a non-positive integer amount yields the amount error with
the line number. -/
theorem lineDefect_amount (ck : ChecksumOracle) (idx : Nat) (l : String) (addr : String)
    (h1 : (pyStrip l).data.isEmpty = false)
    (h2 : charsStart ['#'] (pyStrip l).data = false)
    (h3 : ((pyStrip l).data.any (· == ',')) = true)
    (h4 : normalize_address ck (pyStrip (pySplitComma1 (pyStrip l)).1) = some addr) :
    (pyInt? (pyStrip (pySplitComma1 (pyStrip l)).2) = none →
      lineDefect ck idx l = some (.invalidIntLiteral (pyStrip (pySplitComma1 (pyStrip l)).2))) ∧
    (∀ amt, pyInt? (pyStrip (pySplitComma1 (pyStrip l)).2) = some amt → amt ≤ 0 →
      lineDefect ck idx l = some (.nonPositiveAmount idx amt)) := by
  constructor
  · intro h5
    simp [lineDefect, parseLine, h1, h2, h3, h4, h5]
  · intro amt h5 h6
    simp [lineDefect, parseLine, h1, h2, h3, h4, h5, h6]

/-- What a completed run of `main` consists of: the exit code comes from
the final `failed` counter, and the final state is the loop run from
zeroed counters over the post-skip recipients paired with their attempt
environments. -/
theorem mainModel_finished_spec (cfg : ScriptConfig) (env : MainEnv) (st : LoopState)
    (code : Nat) (hfin : mainModel cfg env = .finished st code) :
    code = (if st.failed = 0 then 0 else 1) ∧
    ∃ all, parse_recipients env.ck cfg.recipientsRaw = .ok all ∧
      st = runLoop cfg EXPECTED_DECIMALS
        { nonce := env.startPendingNonce, succeeded := 0, failed := 0, skipped := 0,
          rows := auditEnter env.fileState } 1
        ((if cfg.skipFirstN > 0 then all.drop cfg.skipFirstN else all).zip env.attempts) := by
  simp only [mainModel] at hfin
  split at hfin
  · simp at hfin
  · split at hfin
    · simp at hfin
    · split at hfin
      · simp at hfin
      · split at hfin
        · simp at hfin
        · rename_i d hdec
          split at hfin
          · simp at hfin
          · rename_i hne
            have hd : d = EXPECTED_DECIMALS := by
              by_contra hc
              exact hne hc
            subst hd
            split at hfin
            · simp at hfin
            · rename_i all hparse
              split at hfin
              · rename_i hskip
                split at hfin
                · simp at hfin
                · split at hfin
                  · simp at hfin
                  · injection hfin with hst hcode
                    subst hst
                    refine ⟨hcode.symm, all, hparse, ?_⟩
                    rw [if_pos hskip]
              · rename_i hskip
                split at hfin
                · simp at hfin
                · split at hfin
                  · simp at hfin
                  · injection hfin with hst hcode
                    subst hst
                    refine ⟨hcode.symm, all, hparse, ?_⟩
                    rw [if_neg hskip]

/-- The priority fee of `pick_fees` under an overriding configuration is
the configured gwei value scaled to wei. -/
theorem pickFeesOverride (g : ℚ) (base gasPrice : Nat) :
    priorityFeeOf (pick_fees (some g) (some base) gasPrice) = some (to_wei_gwei g) := by
  unfold pick_fees is_eip1559 priorityFeeOf
  simp

/-- C3: on a fee-market chain `pick_fees` returns
`maxFeePerGas = floor(baseFee * MAX_FEE_MULTIPLIER) + priorityFee`, the
priority fee defaulting to 1.5 gwei (1500000000 wei) when
`MAX_PRIORITY_FEE_GWEI` is `None` and otherwise being the configured
value; with the shipped multiplier `Decimal("2.0")` the floor term is
exactly `2 * baseFee`.  In particular, for a base fee of 10 gwei the
result is 21.5 gwei (21500000000 wei) — the claim's
`floor(10*2.0)+1.5 = 21.5` read in consistent gwei units. -/
theorem c3_fee_formula :
    (∀ base gasPrice, pick_fees MAX_PRIORITY_FEE_GWEI (some base) gasPrice =
        .eip1559 (2 * base + 1500000000) 1500000000) ∧
    (∀ g base gasPrice, priorityFeeOf (pick_fees (some g) (some base) gasPrice) =
        some (to_wei_gwei g)) ∧
    pick_fees MAX_PRIORITY_FEE_GWEI (some (10 * 1000000000)) 0 =
      .eip1559 21500000000 1500000000 := by
  refine ⟨pickFeesDefault, pickFeesOverride, ?_⟩
  rw [pickFeesDefault]

/-- C9: opening the audit sink writes the header exactly when the file
does not exist; opening an existing file changes nothing (so re-opening
is idempotent and the header is written at most once per file), and any
sequence of appends leaves the prior rows as an unchanged prefix. -/
theorem c9_audit_append_idempotent :
    auditEnter none = [AUDIT_HEADER] ∧
    (∀ rows, auditEnter (some rows) = rows) ∧
    (∀ fs, auditEnter (some (auditEnter fs)) = auditEnter fs) ∧
    (∀ rows newRows, auditLogAll (auditEnter (some rows)) newRows = rows ++ newRows) ∧
    (∀ rows newRows, (auditLogAll rows newRows).take rows.length = rows) := by
  refine ⟨rfl, fun rows => rfl, fun fs => ?_, fun rows newRows => ?_, fun rows newRows => ?_⟩
  · cases fs <;> rfl
  · rw [auditLogAll_eq]; rfl
  · rw [auditLogAll_eq, List.take_left]

/-- C4: with dry-run enabled an attempt invokes no ledger collaborator
at all — in particular neither gas estimation, nor signing, nor
broadcast — and it immediately logs exactly one `DRY_RUN` row and still
advances the local nonce counter by exactly 1. -/
theorem c4_dry_run_short_circuit (cfg : ScriptConfig) (d : Nat) (env : AttemptEnv)
    (st : LoopState) (i : Nat) (a : String) (m : Int) (hdry : cfg.dryRun = true) :
    (attemptBody cfg d env st i a m).calls = [] ∧
    (attemptBody cfg d env st i a m).st.rows =
      st.rows ++ [renderRow env.timestamp (i + cfg.skipFirstN) a m (token_units m d)
        none "DRY_RUN" none none none] ∧
    (attemptBody cfg d env st i a m).st.nonce = st.nonce + 1 := by
  rw [attemptBody_dry cfg d env st i a m hdry]
  exact ⟨rfl, rfl, rfl⟩

/-- Witness for C4: the shipped dry-run configuration on a concrete
attempt. -/
theorem c4_dry_run_short_circuit_witness :
    (attemptBody cfgDry 18 envTimeout stEmpty 1 addrDead 1000).calls = [] ∧
    (attemptBody cfgDry 18 envTimeout stEmpty 1 addrDead 1000).st.nonce =
      stEmpty.nonce + 1 :=
  ⟨(c4_dry_run_short_circuit cfgDry 18 envTimeout stEmpty 1 addrDead 1000 rfl).1,
   (c4_dry_run_short_circuit cfgDry 18 envTimeout stEmpty 1 addrDead 1000 rfl).2.2⟩

/-- C5: in live mode an attempt obtains no transaction hash exactly when
the fee query, the build-and-sign step, or the broadcast raised; in that
case the local nonce counter is not incremented but re-fetched from the
network's pending transaction count. -/
theorem c5_pre_hash_nonce_refetch (cfg : ScriptConfig) (d : Nat) (env : AttemptEnv)
    (st : LoopState) (i : Nat) (a : String) (m : Int) (hlive : cfg.dryRun = false) :
    ((attemptBody cfg d env st i a m).sentTxHash = none ↔
      ((∃ e, env.feeResult = .error e) ∨ (∃ e, env.signResult = .error e) ∨
       (∃ e, env.broadcastResult = .error e))) ∧
    ((attemptBody cfg d env st i a m).sentTxHash = none →
      (attemptBody cfg d env st i a m).st.nonce = env.pendingNonce ∧
      "get_transaction_count" ∈ (attemptBody cfg d env st i a m).calls) := by
  rw [attemptBody_live cfg d env st i a m hlive]
  refine ⟨runTry_hash_iff env, fun hn => ?_⟩
  have hsome : (runTry env).1.sentTxHash.isSome = false := by
    rw [show (runTry env).1.sentTxHash = none from hn]; rfl
  constructor
  · simp [hsome]
  · simp [hsome]

/-- Witness for C5: a concrete attempt whose fee query raises. -/
theorem c5_pre_hash_nonce_refetch_witness :
    (attemptBody cfgLive 18 envFeeFail stEmpty 1 addrDead 1000).st.nonce =
      envFeeFail.pendingNonce ∧
    "get_transaction_count" ∈ (attemptBody cfgLive 18 envFeeFail stEmpty 1 addrDead 1000).calls :=
  (c5_pre_hash_nonce_refetch cfgLive 18 envFeeFail stEmpty 1 addrDead 1000 rfl).2 (by decide)

/-- C1 counterexample: an attempt that broadcasts (hash `0xabc`) and then
hits a generic exception while waiting for the receipt ends with status
`ERROR`; the script does not advance the local nonce counter by 1 but
re-fetches the pending transaction count (here 42), refuting the claim
that every hash-obtaining attempt advances the local counter by exactly 1
regardless of outcome. -/
theorem c1_counterexample :
    (attemptBody cfgLive 18 envHashThenError st5 1 addrDead 1000).sentTxHash = some "0xabc" ∧
    (attemptBody cfgLive 18 envHashThenError st5 1 addrDead 1000).status = "ERROR" ∧
    (attemptBody cfgLive 18 envHashThenError st5 1 addrDead 1000).st.nonce ≠ st5.nonce + 1 :=
  ⟨rfl, rfl, by decide⟩

/-- C1 (amended): after a transaction hash is obtained the local nonce
counter is advanced by exactly 1 when the attempt's terminal status is
SUCCESS, REVERTED or TIMEOUT; when a contract-logic error or a generic
exception follows the broadcast (status CONTRACT_ERROR or ERROR) the
nonce is instead re-fetched from the network's pending transaction
count. -/
theorem c1_nonce_after_hash_amended (cfg : ScriptConfig) (d : Nat) (env : AttemptEnv)
    (st : LoopState) (i : Nat) (a : String) (m : Int) (hlive : cfg.dryRun = false) :
    ((attemptBody cfg d env st i a m).sentTxHash.isSome = true →
      (attemptBody cfg d env st i a m).status ∈ STATUSES_CONSUMING_NONCE →
      (attemptBody cfg d env st i a m).st.nonce = st.nonce + 1) ∧
    ((attemptBody cfg d env st i a m).sentTxHash.isSome = true →
      ((attemptBody cfg d env st i a m).status = "CONTRACT_ERROR" ∨
        (attemptBody cfg d env st i a m).status = "ERROR") →
      (attemptBody cfg d env st i a m).st.nonce = env.pendingNonce) := by
  constructor
  · intro hh hm
    simp only [attemptBody_live cfg d env st i a m hlive] at hh hm ⊢
    have hc : STATUSES_CONSUMING_NONCE.contains (runTry env).1.status = true :=
      List.elem_eq_true_of_mem hm
    simp [hh, hc, hm]
  · intro hh hm
    simp only [attemptBody_live cfg d env st i a m hlive] at hh hm ⊢
    have hnm : (runTry env).1.status ∉ STATUSES_CONSUMING_NONCE := by
      rcases hm with hm | hm <;> rw [hm] <;> decide
    simp [hnm]

/-- Witness for C1 (amended): a broadcast attempt that times out has its
nonce advanced by exactly 1. -/
theorem c1_nonce_after_hash_amended_witness :
    (attemptBody cfgLive 18 envTimeout st5 1 addrDead 1000).st.nonce = st5.nonce + 1 :=
  (c1_nonce_after_hash_amended cfgLive 18 envTimeout st5 1 addrDead 1000 rfl).1
    (by decide) (by decide)

/-- C2 counterexample: the dry-run branch logs the literal status
`"DRY_RUN"`, which is not in the claimed status set (the claim says
`SIMULATED`). -/
theorem c2_counterexample :
    (attemptBody cfgDry 18 envTimeout stEmpty 1 addrDead 1000).st.rows.map rowStatus =
      ["DRY_RUN"] ∧
    ("DRY_RUN" : String) ∉
      ["SIMULATED", "SUCCESS", "REVERTED", "TIMEOUT", "CONTRACT_ERROR", "ERROR"] :=
  ⟨by decide, by decide⟩

/-- C2 (amended): every status value the transfer loop writes to an
audit row is one of DRY_RUN, SUCCESS, REVERTED, TIMEOUT, CONTRACT_ERROR,
ERROR, and in dry-run mode every written status is DRY_RUN (the code's
literal for the claim's `SIMULATED`). -/
theorem c2_status_values_amended (cfg : ScriptConfig) (d : Nat) (st : LoopState)
    (i : Nat) (items : List ((String × Int) × AttemptEnv)) :
    ∀ r ∈ (runLoop cfg d st i items).rows.drop st.rows.length,
      rowStatus r ∈ ["DRY_RUN", "SUCCESS", "REVERTED", "TIMEOUT", "CONTRACT_ERROR", "ERROR"] ∧
      (cfg.dryRun = true → rowStatus r = "DRY_RUN") := by
  obtain ⟨newRows, hrows, hmem⟩ := runLoop_rows cfg d items st i
  rw [hrows, List.drop_left]
  exact hmem

/-- Witness for C2 (amended): the row written by a concrete dry-run
iteration. -/
theorem c2_status_values_amended_witness :
    rowStatus (renderRow "2026-01-01T00:00:00+00:00" 1 addrDead 1000
        (token_units 1000 18) none "DRY_RUN" none none none) ∈
      ["DRY_RUN", "SUCCESS", "REVERTED", "TIMEOUT", "CONTRACT_ERROR", "ERROR"] :=
  (c2_status_values_amended cfgDry 18 stEmpty 1 [((addrDead, 1000), envTimeout)]
    (renderRow "2026-01-01T00:00:00+00:00" 1 addrDead 1000 (token_units 1000 18)
      none "DRY_RUN" none none none) (by decide)).1

/-- C6: if the token reports a decimals value different from the
hard-coded `EXPECTED_DECIMALS = 18`, `main` returns exit code 1 before
any transfer attempt, and the audit file is left untouched — zero audit
rows are written. -/
theorem c6_decimals_mismatch_aborts (cfg : ScriptConfig) (env : MainEnv) (d : Nat)
    (hd : env.decimalsResult = .ok d) (hne : d ≠ EXPECTED_DECIMALS) :
    mainModel cfg env = .earlyExit 1 ∧
    fileAfter env.fileState (mainModel cfg env) = env.fileState := by
  have hmain : mainModel cfg env = .earlyExit 1 := by
    simp only [mainModel]
    split
    · rfl
    · split
      · rfl
      · split
        · rfl
        · rw [hd]
          simp [hne]
  exact ⟨hmain, by rw [hmain]; rfl⟩

/-- Witness for C6: a token reporting 6 decimals aborts the run. -/
theorem c6_decimals_mismatch_aborts_witness :
    mainModel cfgDry envDec6 = .earlyExit 1 ∧
    fileAfter envDec6.fileState (mainModel cfgDry envDec6) = envDec6.fileState :=
  c6_decimals_mismatch_aborts cfgDry envDec6 6 rfl (by decide)

/-- C7: whenever `parse_recipients` succeeds, its output is exactly the
per-line entries of the enumerated input lines in input order (the
order-preserving `filterMap` over `List.enumFrom 1`), and every returned
amount is a strictly positive integer. -/
theorem c7_parse_order_positive (ck : ChecksumOracle) (raw : String)
    (out : List (String × Int)) (h : parse_recipients ck raw = .ok out) :
    out = (List.enumFrom 1 (pySplitlines raw)).filterMap (fun p => lineEntry ck p.1 p.2) ∧
    ∀ e ∈ out, 0 < e.2 :=
  parseLines_ok ck (pySplitlines raw) 1 out h

/-- The two-recipient input shipped in the script (plus a comment line
and a blank line). -/
def rawTwo : String :=
  "0x000000000000000000000000000000000000dead, 1000\n# note\n\n0x000000000000000000000000000000000000dead, 2000"

/-- The entries `parse_recipients` returns on `rawTwo`. -/
def outTwo : List (String × Int) := [(addrDead, 1000), (addrDead, 2000)]

/-- Witness for C7 on the concrete two-recipient input. -/
theorem c7_parse_order_positive_witness :
    outTwo = (List.enumFrom 1 (pySplitlines rawTwo)).filterMap
        (fun p => lineEntry ckAny p.1 p.2) ∧
    ∀ e ∈ outTwo, 0 < e.2 :=
  c7_parse_order_positive ckAny rawTwo outTwo (by decide)

/-- C8 counterexample: the line `"hello, 5"` is non-empty, is not a
comment, contains a separating comma, and its amount is the positive
integer 5, yet the parser raises — the address fails both checksum
attempts (even under the all-accepting oracle, since `"hello"` is not a
hex address) and the validation error propagates.  This refutes the
claim's "it raises no error otherwise". -/
theorem c8_counterexample :
    parse_recipients ckAny "hello, 5" = .error (.invalidAddress "hello") := by decide

/-- C8 (amended): `parse_recipients` raises `e` exactly when `e` is the
defect of the first offending enumerated line, where a non-empty
non-comment line without a comma yields the malformed-line error
carrying its 1-based number and stripped text; with a comma and a
validated address, a non-integer amount yields the `int()` error and a
non-positive integer amount yields the positive-amount error; and — the
amendment — a line whose address fails both the strict and the
lower-cased checksum validation propagates the address-validation error,
checked before the amount.  When no line is offending the parser returns
without error. -/
theorem c8_parser_errors_amended (ck : ChecksumOracle) (raw : String) :
    (∀ e, parse_recipients ck raw = .error e ↔
      (List.enumFrom 1 (pySplitlines raw)).findSome?
        (fun p => lineDefect ck p.1 p.2) = some e) ∧
    ((List.enumFrom 1 (pySplitlines raw)).findSome?
        (fun p => lineDefect ck p.1 p.2) = none →
      ∃ out, parse_recipients ck raw = .ok out) ∧
    (∀ idx l, (pyStrip l).data.isEmpty = false →
      charsStart ['#'] (pyStrip l).data = false →
      ((pyStrip l).data.any (· == ',')) = false →
      lineDefect ck idx l = some (.malformedLine idx (pyStrip l))) ∧
    (∀ idx l addr, (pyStrip l).data.isEmpty = false →
      charsStart ['#'] (pyStrip l).data = false →
      ((pyStrip l).data.any (· == ',')) = true →
      normalize_address ck (pyStrip (pySplitComma1 (pyStrip l)).1) = some addr →
      (pyInt? (pyStrip (pySplitComma1 (pyStrip l)).2) = none →
        lineDefect ck idx l =
          some (.invalidIntLiteral (pyStrip (pySplitComma1 (pyStrip l)).2))) ∧
      (∀ amt, pyInt? (pyStrip (pySplitComma1 (pyStrip l)).2) = some amt → amt ≤ 0 →
        lineDefect ck idx l = some (.nonPositiveAmount idx amt))) ∧
    (∀ idx l, (pyStrip l).data.isEmpty = false →
      charsStart ['#'] (pyStrip l).data = false →
      ((pyStrip l).data.any (· == ',')) = true →
      normalize_address ck (pyStrip (pySplitComma1 (pyStrip l)).1) = none →
      lineDefect ck idx l =
        some (.invalidAddress (pyStrip (pySplitComma1 (pyStrip l)).1))) := by
  refine ⟨fun e => parseLines_error_iff ck (pySplitlines raw) 1 e, ?_,
    fun idx l h1 h2 h3 => lineDefect_malformed ck idx l h1 h2 h3,
    fun idx l addr h1 h2 h3 h4 => lineDefect_amount ck idx l addr h1 h2 h3 h4,
    fun idx l h1 h2 h3 h4 => lineDefect_address ck idx l h1 h2 h3 h4⟩
  intro hnone
  cases hp : parse_recipients ck raw with
  | error e =>
    have he := (parseLines_error_iff ck (pySplitlines raw) 1 e).mp hp
    rw [hnone] at he
    cases he
  | ok out => exact ⟨out, rfl⟩

/-- Witness for C8 (amended): a concrete comma-less line produces the
malformed-line error with its line number and stripped text. -/
theorem c8_parser_errors_amended_witness :
    lineDefect ckAny 1 " 0xdead 5 " = some (.malformedLine 1 (pyStrip " 0xdead 5 ")) :=
  (c8_parser_errors_amended ckAny "").2.2.1 1 " 0xdead 5 "
    (by decide) (by decide) (by decide)

/-- C10: every loop iteration appends exactly one audit row and
increments exactly one of the counters `succeeded`/`failed`/`skipped` by
exactly 1; consequently the loop adds one row and one counter unit per
processed item, a completed run's counters sum to the parsed recipient
count minus the skip offset (when an attempt environment exists for each
processed recipient), and the run exits 0 exactly when `failed = 0`. -/
theorem c10_loop_accounting :
    (∀ cfg d env st i a m,
      (∃ row, (attemptBody cfg d env st i a m).st.rows = st.rows ++ [row]) ∧
      (((attemptBody cfg d env st i a m).st.succeeded = st.succeeded + 1 ∧
        (attemptBody cfg d env st i a m).st.failed = st.failed ∧
        (attemptBody cfg d env st i a m).st.skipped = st.skipped) ∨
       ((attemptBody cfg d env st i a m).st.succeeded = st.succeeded ∧
        (attemptBody cfg d env st i a m).st.failed = st.failed + 1 ∧
        (attemptBody cfg d env st i a m).st.skipped = st.skipped) ∨
       ((attemptBody cfg d env st i a m).st.succeeded = st.succeeded ∧
        (attemptBody cfg d env st i a m).st.failed = st.failed ∧
        (attemptBody cfg d env st i a m).st.skipped = st.skipped + 1))) ∧
    (∀ cfg d items st i,
      (runLoop cfg d st i items).succeeded + (runLoop cfg d st i items).failed +
          (runLoop cfg d st i items).skipped =
        st.succeeded + st.failed + st.skipped + items.length ∧
      (runLoop cfg d st i items).rows.length = st.rows.length + items.length) ∧
    (∀ cfg env st code all,
      mainModel cfg env = .finished st code →
      parse_recipients env.ck cfg.recipientsRaw = .ok all →
      all.length - cfg.skipFirstN ≤ env.attempts.length →
      st.succeeded + st.failed + st.skipped = all.length - cfg.skipFirstN) ∧
    (∀ cfg env st code,
      mainModel cfg env = .finished st code → (code = 0 ↔ st.failed = 0)) := by
  refine ⟨?_, ?_, ?_, ?_⟩
  · intro cfg d env st i a m
    obtain ⟨row, hrow, _⟩ := attemptBody_row cfg d env st i a m
    exact ⟨⟨row, hrow⟩, attemptBody_counters cfg d env st i a m⟩
  · intro cfg d items st i
    exact runLoop_sums cfg d items st i
  · intro cfg env st code all hfin hparse hlen
    obtain ⟨hcode, all', hparse', hst⟩ := mainModel_finished_spec cfg env st code hfin
    have hall : all' = all := by
      rw [hparse'] at hparse
      injection hparse
    rw [hall] at hst
    subst hst
    obtain ⟨hsums, _⟩ := runLoop_sums cfg EXPECTED_DECIMALS
      ((if cfg.skipFirstN > 0 then all.drop cfg.skipFirstN else all).zip env.attempts)
      { nonce := env.startPendingNonce, succeeded := 0, failed := 0, skipped := 0,
        rows := auditEnter env.fileState } 1
    rw [hsums]
    simp only [List.length_zip, List.length_drop]
    by_cases hskip : cfg.skipFirstN > 0
    · rw [if_pos hskip]
      simp only [List.length_drop]
      omega
    · rw [if_neg hskip]
      omega
  · intro cfg env st code hfin
    obtain ⟨hcode, _⟩ := mainModel_finished_spec cfg env st code hfin
    rw [hcode]
    by_cases hf : st.failed = 0 <;> simp [hf]

/-- Witness for C10: the completed dry-run over an empty recipient list
processes zero recipients, and its exit code is 0 with `failed = 0`. -/
theorem c10_loop_accounting_witness :
    stFin.succeeded + stFin.failed + stFin.skipped =
      ([] : List (String × Int)).length - cfgDry.skipFirstN ∧
    (0 = 0 ↔ stFin.failed = 0) :=
  ⟨c10_loop_accounting.2.2.1 cfgDry envOk stFin 0 [] rfl (by decide) (by decide),
   c10_loop_accounting.2.2.2 cfgDry envOk stFin 0 rfl⟩
